import Mathlib

/-!
Verification of the meeting client's session-state and device-state logic.

The repository is a browser video-meeting client whose hard logic lives in two
React context providers: a Session Manager (`SpaceContext`: roster maintenance,
active-speaker reordering, screen-share lifecycle, publish/unpublish, leave)
and a Device Inventory Manager (`UserMediaContext`: device acquisition, error
classification, microphone level metering).  This file is a shallow embedding
of that logic: React `useState` cells become fields of explicit state records,
SDK event handlers become functions from state to state, `async` functions
that may throw become `Except`-valued functions, and the external SDK's
asynchronous results (device acquisition, leave) are passed in as explicit
parameters.
-/

namespace BalaMeet

/-- Track sources recognised by the client (`TrackSource` in `@mux/spaces-web`). -/
inductive TrackSource
  | camera
  | microphone
  | screenshare
deriving DecidableEq, Repr

/-- A media track: source kind, owning device id, mute state, and whether the
track currently carries media (`track.hasMedia()`). -/
structure Track where
  source : TrackSource
  deviceId : String
  muted : Bool
  hasMedia : Bool
deriving DecidableEq, Repr

/-- A remote participant as observed by the client: connection id, display
name, and its current subscription status (`isSubscribed()`), taken as a
snapshot field. -/
structure RemoteParticipant where
  connectionId : String
  displayName : String
  subscribed : Bool
deriving DecidableEq, Repr

/-- The local participant: connection id, display name, and the track lists the
SDK reports through `getAudioTracks` / `getVideoTracks`. -/
structure LocalParticipant where
  connectionId : String
  displayName : String
  audioTracks : List Track
  videoTracks : List Track
deriving DecidableEq, Repr

/-- Either side of `LocalParticipant | RemoteParticipant` unions in the source;
`instanceof RemoteParticipant` checks become a `match` on this sum. -/
inductive Participant
  | localP (p : LocalParticipant)
  | remoteP (p : RemoteParticipant)
deriving DecidableEq, Repr

def LocalParticipant.getAudioTracks (lp : LocalParticipant) : List Track :=
  lp.audioTracks

def LocalParticipant.getVideoTracks (lp : LocalParticipant) : List Track :=
  lp.videoTracks

def LocalParticipant.getTracks (lp : LocalParticipant) : List Track :=
  lp.audioTracks ++ lp.videoTracks

/-- Models the external SDK contract for `localParticipant.publishTracks`: each
published track is registered with the local participant (microphone tracks
among the audio tracks, camera and screen-share tracks among the video
tracks).  The argument list may contain `undefined` entries, because
`publishMicrophone` passes `getMicrophone`'s possibly-undefined result through
unchecked; an `undefined` entry registers nothing. -/
def LocalParticipant.publishTracks (lp : LocalParticipant)
    (ts : List (Option Track)) : LocalParticipant :=
  ts.foldl (fun acc t? =>
    match t? with
    | none => acc
    | some t =>
        if t.source == TrackSource.microphone then
          { acc with audioTracks := acc.audioTracks ++ [t] }
        else
          { acc with videoTracks := acc.videoTracks ++ [t] }) lp

/-- Models the external SDK contract for `localParticipant.unpublishTracks`:
the given tracks are removed from the participant's track lists (JS removes by
object identity; tracks are compared structurally here). -/
def LocalParticipant.unpublishTracks (lp : LocalParticipant)
    (ts : List Track) : LocalParticipant :=
  { lp with
      audioTracks := lp.audioTracks.filter (fun t => !ts.contains t),
      videoTracks := lp.videoTracks.filter (fun t => !ts.contains t) }

/-- The Session Manager's `useState` cells (`SpaceProvider`), as one record.
The `space` handle itself is behavioural (listeners, SDK calls) and is not a
field; its effects enter through event application and explicit parameters. -/
structure SpaceState where
  spaceEndsAt : Option Nat
  localParticipant : Option LocalParticipant
  remoteParticipants : List RemoteParticipant
  isJoined : Bool
  joinError : Option String
  isBroadcasting : Bool
  screenShareTrack : Option Track
  participantScreenSharing : Option Participant
  screenShareError : Option String
deriving DecidableEq, Repr

/-- Errors thrown synchronously by the publish/unpublish operations
(`throw new Error(...)` in the source), plus the runtime `TypeError` raised
when a property such as `.mute()` is accessed on an `undefined` track. -/
inductive SpaceErr
  | notJoined
  | alreadyPublished
  | notPublished
  | typeError
deriving DecidableEq, Repr

/-- `handleParticipantJoined`: add the participant unless its connection id is
already present. -/
def handleParticipantJoined (roster : List RemoteParticipant)
    (newParticipant : RemoteParticipant) : List RemoteParticipant :=
  match roster.find? (fun p => p.connectionId == newParticipant.connectionId) with
  | some _ => roster
  | none => roster ++ [newParticipant]

/-- `handleParticipantLeft`: remove by connection id. -/
def handleParticipantLeft (roster : List RemoteParticipant)
    (leaving : RemoteParticipant) : List RemoteParticipant :=
  roster.filter (fun p => p.connectionId != leaving.connectionId)

/-- One iteration of `handleActiveSpeakerChanged`'s `forEach`: if the change is
for a remote participant found in the roster at an index at or past
`pageSize - 1` (the source compares `idx >= MAX_PARTICIPANTS_PER_PAGE - 1`),
splice it out and unshift the event's participant to the front; otherwise
leave the roster alone.  `findIndex` returning `-1` (participant absent) fails
the comparison for any positive page size and is the `none` branch here.
`MAX_PARTICIPANTS_PER_PAGE` is imported from `lib/constants`, which is not
among the sources, so the page size is a parameter. -/
def activeSpeakerStep (pageSize : Nat) (roster : List RemoteParticipant)
    (change : Participant) : List RemoteParticipant :=
  match change with
  | Participant.localP _ => roster
  | Participant.remoteP rp =>
      match roster.findIdx? (fun p => p.connectionId == rp.connectionId) with
      | some idx =>
          if pageSize - 1 ≤ idx then rp :: roster.eraseIdx idx else roster
      | none => roster

/-- `handleActiveSpeakerChanged`: the batch of changes is applied in order to
the mutable copy of the roster. -/
def handleActiveSpeakerChanged (pageSize : Nat) (changes : List Participant)
    (roster : List RemoteParticipant) : List RemoteParticipant :=
  changes.foldl (activeSpeakerStep pageSize) roster

/-- The `updated` array built by `reorderRemoteParticipantsBySubscription`: the
changed participant's record replaces the entry with its connection id. -/
def updateByConnectionId (roster : List RemoteParticipant)
    (participantWhoChanged : RemoteParticipant) : List RemoteParticipant :=
  roster.map (fun p =>
    if p.connectionId == participantWhoChanged.connectionId then
      participantWhoChanged
    else p)

/-- `reorderRemoteParticipantsBySubscription`: replace the changed entry, then
keep subscribed participants ahead of unsubscribed ones. -/
def reorderRemoteParticipantsBySubscription (roster : List RemoteParticipant)
    (participantWhoChanged : RemoteParticipant) : List RemoteParticipant :=
  let updated := updateByConnectionId roster participantWhoChanged
  updated.filter (fun p => p.subscribed) ++ updated.filter (fun p => !p.subscribed)

/-- `handleParticipantDisplayNameChanged`, remote branch: the matching roster
entry's display name is updated in place (the source mutates the entry found
by connection id; since roster connection ids are kept unique there is at most
one match, modelled by updating every matching entry). -/
def handleDisplayNameChangedRemote (roster : List RemoteParticipant)
    (updated : RemoteParticipant) : List RemoteParticipant :=
  roster.map (fun p =>
    if p.connectionId == updated.connectionId then
      { p with displayName := updated.displayName }
    else p)

/-- `setupScreenShare`: record the track and its owner. -/
def setupScreenShare (st : SpaceState) (participant : Participant)
    (track : Track) : SpaceState :=
  { st with
      screenShareTrack := some track,
      participantScreenSharing := some participant }

/-- `tearDownScreenShare`: clear the single screen-share slot. -/
def tearDownScreenShare (st : SpaceState) : SpaceState :=
  { st with screenShareTrack := none, participantScreenSharing := none }

/-- The SDK events the provider subscribes to in `joinSpace`, as a tagged
variant type (an `ActiveSpeaker` batch entry is represented by its
`.participant` field, the only part the handler reads). -/
inductive SpaceEvent
  | participantJoined (p : RemoteParticipant)
  | participantLeft (p : RemoteParticipant)
  | activeSpeakersChanged (changes : List Participant)
  | broadcastStateChanged (b : Bool)
  | trackPublished (p : Participant) (t : Track)
  | trackSubscribed (p : Participant) (t : Track)
  | trackUnpublished (p : Participant) (t : Track)
  | trackUnsubscribed (p : Participant) (t : Track)
  | displayNameChanged (p : Participant)
deriving DecidableEq, Repr

/-- Dispatch of one SDK event to the handler bound for it in `joinSpace`;
handlers run sequentially on the single logical event queue, so state
evolution is the fold of this function. -/
def applyEvent (pageSize : Nat) (st : SpaceState) : SpaceEvent → SpaceState
  | SpaceEvent.participantJoined p =>
      { st with remoteParticipants := handleParticipantJoined st.remoteParticipants p }
  | SpaceEvent.participantLeft p =>
      { st with remoteParticipants := handleParticipantLeft st.remoteParticipants p }
  | SpaceEvent.activeSpeakersChanged changes =>
      { st with remoteParticipants :=
          handleActiveSpeakerChanged pageSize changes st.remoteParticipants }
  | SpaceEvent.broadcastStateChanged b => { st with isBroadcasting := b }
  | SpaceEvent.trackPublished p t =>
      if t.source == TrackSource.screenshare && t.hasMedia then
        setupScreenShare st p t
      else st
  | SpaceEvent.trackSubscribed p t =>
      let st1 :=
        match p with
        | Participant.remoteP rp =>
            { st with remoteParticipants :=
                reorderRemoteParticipantsBySubscription st.remoteParticipants rp }
        | Participant.localP _ => st
      if t.source == TrackSource.screenshare && t.hasMedia then
        setupScreenShare st1 p t
      else st1
  | SpaceEvent.trackUnpublished _ t =>
      if t.source == TrackSource.screenshare then tearDownScreenShare st else st
  | SpaceEvent.trackUnsubscribed p t =>
      let st1 :=
        match p with
        | Participant.remoteP rp =>
            { st with remoteParticipants :=
                reorderRemoteParticipantsBySubscription st.remoteParticipants rp }
        | Participant.localP _ => st
      if t.source == TrackSource.screenshare then tearDownScreenShare st1 else st1
  | SpaceEvent.displayNameChanged p =>
      match p with
      | Participant.remoteP rp =>
          { st with remoteParticipants :=
              handleDisplayNameChangedRemote st.remoteParticipants rp }
      | Participant.localP lp =>
          { st with localParticipant :=
              st.localParticipant.map (fun l => { l with displayName := lp.displayName }) }

/-- The state update performed by `leaveSpace`'s `finally` block. -/
def leaveSpaceCleanup (st : SpaceState) : SpaceState :=
  { st with
      joinError := none,
      remoteParticipants := [],
      isBroadcasting := false,
      localParticipant := none,
      isJoined := false,
      spaceEndsAt := none }

/-- `leaveSpace`: `space?.removeAllListeners(); space?.leave()` runs in a `try`
whose `finally` applies `leaveSpaceCleanup`; whether the SDK calls throw is the
`sdkThrows` parameter.  The cleanup runs either way, and a thrown exception
then propagates to the caller (second component). -/
def leaveSpace (st : SpaceState) (sdkThrows : Bool) : SpaceState × Bool :=
  (leaveSpaceCleanup st, sdkThrows)

/-- An error thrown by the platform's media acquisition (`getUserMedia`): the
client inspects its `name` and whether it is an `instanceof DOMException`. -/
structure MediaErr where
  name : String
  isDOMException : Bool
deriving DecidableEq, Repr

/-- The outcome of one `getUserMedia` call, supplied by the platform: either
the acquired local tracks or a thrown error. -/
inductive AcqResult
  | success (tracks : List Track)
  | failure (e : MediaErr)
deriving DecidableEq, Repr

/-- The `catch` cascade shared by `getMicrophone` / `getCamera` in
`src/context/UserMedia.tsx`: the string stored into `userMediaError`.
`if (["NotAllowedError","PermissionDeniedError"].includes(e.name) || e instanceof DOMException)`
stores `"NotAllowedError"`; otherwise an overconstraint name stores
`"OverconstrainedError"`; otherwise `e.name` is stored verbatim. -/
def classifyMediaError (e : MediaErr) : String :=
  if e.name = "NotAllowedError" ∨ e.name = "PermissionDeniedError" ∨
      e.isDOMException = true then
    "NotAllowedError"
  else if e.name = "OverconstrainedError" ∨ e.name = "ConstraintNotSatisfiedError" then
    "OverconstrainedError"
  else
    e.name

/-- The Device Inventory Manager's `useState` cells (`UserMediaProvider`).
The analyser is represented by the microphone track it was built around;
device lists are platform data irrelevant to the claims. -/
structure MediaState where
  activeMicrophone : Option Track
  activeCamera : Option Track
  localAudioAnalyser : Option Track
  userMediaError : Option String
  microphoneDeviceId : Option String
  cameraDeviceId : Option String
deriving DecidableEq, Repr

def muteTrack (t : Track) : Track :=
  { t with muted := true }

/-- `getMicrophone(deviceId)` from `src/context/UserMedia.tsx`: acquisition
failure records the classified error and leaves `tracks` empty; on success the
`forEach` registers each microphone track as the active one, rebuilds the
analyser, records its device id when non-empty, and mutes it when the user
preference says so (the JS mutes the shared track object in place, modelled by
applying the mute to the track list up front).  The call itself never throws:
it returns `tracks[0]`, which is `undefined` (`none`) when acquisition failed.
The requested `deviceId` only shapes the constraints passed to the platform
and the platform's reply is the `acq` parameter, so it is not repeated here. -/
def getMicrophone (media : MediaState) (userWantsMicMuted : Bool)
    (acq : AcqResult) : MediaState × Option Track :=
  match acq with
  | AcqResult.failure e =>
      ({ media with userMediaError := some (classifyMediaError e) }, none)
  | AcqResult.success tracks =>
      let processed := tracks.map (fun t =>
        if t.source == TrackSource.microphone && userWantsMicMuted then
          muteTrack t
        else t)
      let media' := processed.foldl (fun m t =>
        if t.source == TrackSource.microphone then
          { m with
              activeMicrophone := some t,
              localAudioAnalyser := some t,
              microphoneDeviceId :=
                if t.deviceId = "" then m.microphoneDeviceId else some t.deviceId }
        else m) media
      (media', processed.head?)

/-- `getCamera(deviceId)` from `src/context/UserMedia.tsx`: same shape as
`getMicrophone` but registering camera tracks and never muting. -/
def getCamera (media : MediaState) (acq : AcqResult) : MediaState × Option Track :=
  match acq with
  | AcqResult.failure e =>
      ({ media with userMediaError := some (classifyMediaError e) }, none)
  | AcqResult.success tracks =>
      let media' := tracks.foldl (fun m t =>
        if t.source == TrackSource.camera then
          { m with
              activeCamera := some t,
              cameraDeviceId :=
                if t.deviceId = "" then m.cameraDeviceId else some t.deviceId }
        else m) media
      (media', tracks.head?)

/-- What a completed `publishMicrophone` call produced: the local participant
after `publishTracks`, the media state after `getMicrophone`, and the exact
list handed to `publishTracks` (which may contain an `undefined` entry). -/
structure PublishMicrophoneResult where
  localParticipant : LocalParticipant
  media : MediaState
  published : List (Option Track)
deriving DecidableEq, Repr

/-- `publishMicrophone(deviceId)`: throws `NotJoined` without a local
participant; then acquires via `getMicrophone`; then throws
`AlreadyPublished` when a microphone track with this device id is already
among the local participant's audio tracks; otherwise publishes
`[micTrack]` — with no check that `micTrack` is defined — and finally runs
`if (userWantsMicMuted) micTrack.mute()` unconditionally on that track: on a
defined track this mutes the just-published shared object (modelled by
publishing the muted track), while on an `undefined` track the `.mute()`
access throws a `TypeError`, so the call rejects — after
`publishTracks([undefined])` has already run. -/
def publishMicrophone (localParticipant : Option LocalParticipant)
    (media : MediaState) (userWantsMicMuted : Bool) (deviceId : String)
    (acq : AcqResult) : Except SpaceErr PublishMicrophoneResult :=
  match localParticipant with
  | none => Except.error SpaceErr.notJoined
  | some lp =>
      let acqRes := getMicrophone media userWantsMicMuted acq
      let micTrack := acqRes.2
      match lp.getAudioTracks.find? (fun t =>
          t.source == TrackSource.microphone && t.deviceId == deviceId) with
      | some _ => Except.error SpaceErr.alreadyPublished
      | none =>
          match micTrack with
          | some t =>
              Except.ok
                { localParticipant := lp.publishTracks
                    [some (if userWantsMicMuted then muteTrack t else t)],
                  media := acqRes.1,
                  published := [micTrack] }
          | none =>
              if userWantsMicMuted then Except.error SpaceErr.typeError
              else
                Except.ok
                  { localParticipant := lp.publishTracks [none],
                    media := acqRes.1,
                    published := [none] }

/-- `unPublishDevice(deviceId)`: throws without a local participant; otherwise
looks the device up among the participant's tracks and unpublishes it when
found — and does nothing at all when not found (`if (published) ...` with no
`else`). -/
def unPublishDevice (st : SpaceState) (deviceId : String) :
    Except SpaceErr SpaceState :=
  match st.localParticipant with
  | none => Except.error SpaceErr.notJoined
  | some lp =>
      match lp.getTracks.find? (fun t => t.deviceId == deviceId) with
      | some published =>
          Except.ok
            { st with localParticipant := some (lp.unpublishTracks [published]) }
      | none => Except.ok st

/-- The `sum` accumulated over the analyser buffer divided by its length:
`mean(sample^2)` (samples are the analyser's float time-domain data, embedded
as rationals). -/
def meanSquare (buf : List ℚ) : ℚ :=
  (buf.foldl (fun acc v => acc + v ^ 2) 0) / (buf.length : ℚ)

/-- The `peak` accumulated over the analyser buffer:
`if (sq > peak) peak = sq` starting from `0`. -/
def peakSquare (buf : List ℚ) : ℚ :=
  buf.foldl (fun acc v => if v ^ 2 > acc then v ^ 2 else acc) 0

/-- `getActiveMicrophoneLevel()`: `null` when no analyser exists; otherwise
the decibel pair over the analyser's most recent time-domain buffer (the
buffer the analyser would fill is the argument):
`avgDb = 10*log10(mean(sample^2))`, `peakDb = 10*log10(max(sample^2))`. -/
noncomputable def getActiveMicrophoneLevel (localAudioAnalyser : Option (List ℚ)) :
    Option (ℝ × ℝ) :=
  match localAudioAnalyser with
  | none => none
  | some buf =>
      some (10 * Real.logb 10 (meanSquare buf), 10 * Real.logb 10 (peakSquare buf))

/-- The spec's stable partition of a roster by subscription status: all
subscribed participants first, then all unsubscribed ones, each side in its
original relative order.  Stated from the spec's words, to be compared with
what `reorderRemoteParticipantsBySubscription` produces. -/
def stablePartitionBySubscription (l : List RemoteParticipant) :
    List RemoteParticipant :=
  l.filter (fun p => p.subscribed) ++ l.filter (fun p => !p.subscribed)

/-! ### Example values used by witnesses and counterexamples -/

def rpEx1 : RemoteParticipant :=
  { connectionId := "p1", displayName := "Alice", subscribed := true }

def rpEx2 : RemoteParticipant :=
  { connectionId := "p2", displayName := "Bob", subscribed := true }

def rpEx3 : RemoteParticipant :=
  { connectionId := "p3", displayName := "Cara", subscribed := false }

def screenTrackEx : Track :=
  { source := TrackSource.screenshare, deviceId := "", muted := false,
    hasMedia := true }

def micTrackEx : Track :=
  { source := TrackSource.microphone, deviceId := "mic1", muted := false,
    hasMedia := true }

def lpEmptyEx : LocalParticipant :=
  { connectionId := "local", displayName := "Me", audioTracks := [],
    videoTracks := [] }

def lpWithMicEx : LocalParticipant :=
  { connectionId := "local", displayName := "Me", audioTracks := [micTrackEx],
    videoTracks := [] }

def mediaEmptyEx : MediaState :=
  { activeMicrophone := none, activeCamera := none, localAudioAnalyser := none,
    userMediaError := none, microphoneDeviceId := none, cameraDeviceId := none }

/-- A joined session with an active remote screen-share. -/
def joinedSharingEx : SpaceState :=
  { spaceEndsAt := some 1000, localParticipant := some lpEmptyEx,
    remoteParticipants := [rpEx1, rpEx2], isJoined := true, joinError := none,
    isBroadcasting := true, screenShareTrack := some screenTrackEx,
    participantScreenSharing := some (Participant.remoteP rpEx2),
    screenShareError := none }

/-- A joined session whose local participant has published nothing. -/
def joinedNoTracksEx : SpaceState :=
  { spaceEndsAt := none, localParticipant := some lpEmptyEx,
    remoteParticipants := [], isJoined := true, joinError := none,
    isBroadcasting := false, screenShareTrack := none,
    participantScreenSharing := none, screenShareError := none }

/-- A joined session whose local participant has published one microphone. -/
def joinedWithMicEx : SpaceState :=
  { joinedNoTracksEx with localParticipant := some lpWithMicEx }

/-- The media state after a first successful microphone acquisition for
`"mic1"` on a fresh media state. -/
def pubMediaEx : MediaState :=
  { activeMicrophone := some micTrackEx, activeCamera := none,
    localAudioAnalyser := some micTrackEx, userMediaError := none,
    microphoneDeviceId := some "mic1", cameraDeviceId := none }

/-- The result of a first successful `publishMicrophone "mic1"` call. -/
def pubResEx : PublishMicrophoneResult :=
  { localParticipant := lpWithMicEx, media := pubMediaEx,
    published := [some micTrackEx] }

/-! ### C1: state after `leaveSpace` -/

/-- C1 counterexample: `leaveSpace` does not clear the screen-share state.
On a joined session with an active screen-share, after `leaveSpace` the
screen-share track and owner are still set, refuting the claim that "the
screen-share state is cleared" after `leaveSpace()` returns. -/
theorem leaveSpace_screenShare_counterexample :
    (leaveSpace joinedSharingEx true).1.screenShareTrack = some screenTrackEx ∧
    (leaveSpace joinedSharingEx true).1.participantScreenSharing ≠ none := by
  exact ⟨rfl, by decide⟩

/-- C1 (amended): after `leaveSpace`, whether or not the SDK's
`removeAllListeners`/`leave` calls throw, the remote-participant roster is
empty, `isJoined` is false, broadcasting is false, and the local participant,
join error and expiry are cleared — the `finally` block runs even on a failed
teardown.  The screen-share state, however, is left exactly as it was (it is
not cleared), and a thrown SDK exception still propagates to the caller. -/
theorem leaveSpace_cleanup_spec (st : SpaceState) (sdkThrows : Bool) :
    (leaveSpace st sdkThrows).1.remoteParticipants = [] ∧
    (leaveSpace st sdkThrows).1.isJoined = false ∧
    (leaveSpace st sdkThrows).1.isBroadcasting = false ∧
    (leaveSpace st sdkThrows).1.localParticipant = none ∧
    (leaveSpace st sdkThrows).1.joinError = none ∧
    (leaveSpace st sdkThrows).1.spaceEndsAt = none ∧
    (leaveSpace st sdkThrows).1.screenShareTrack = st.screenShareTrack ∧
    (leaveSpace st sdkThrows).1.participantScreenSharing =
      st.participantScreenSharing ∧
    (leaveSpace st sdkThrows).2 = sdkThrows :=
  ⟨rfl, rfl, rfl, rfl, rfl, rfl, rfl, rfl, rfl⟩

/-! ### C6: screen-share lifecycle -/

/-- C6: a track-published or track-subscribed event whose track is a
screen-share with media present sets the screen-share state to that owner and
track; a subsequent unpublish event for a screen-share track clears the state
(track unset, owner null); and the state holds at most one screen-share at a
time — the slot is a single optional track/owner pair, so setting it replaces
any previous share. -/
theorem screenShare_lifecycle (pageSize : Nat) (st : SpaceState)
    (p : Participant) (t : Track) (hsrc : t.source = TrackSource.screenshare)
    (hmedia : t.hasMedia = true) :
    ((applyEvent pageSize st (SpaceEvent.trackPublished p t)).screenShareTrack
        = some t ∧
      (applyEvent pageSize st
        (SpaceEvent.trackPublished p t)).participantScreenSharing = some p) ∧
    ((applyEvent pageSize st (SpaceEvent.trackSubscribed p t)).screenShareTrack
        = some t ∧
      (applyEvent pageSize st
        (SpaceEvent.trackSubscribed p t)).participantScreenSharing = some p) ∧
    (∀ (st2 : SpaceState) (p2 : Participant),
      (applyEvent pageSize st2
        (SpaceEvent.trackUnpublished p2 t)).screenShareTrack = none ∧
      (applyEvent pageSize st2
        (SpaceEvent.trackUnpublished p2 t)).participantScreenSharing = none) ∧
    ((applyEvent pageSize (applyEvent pageSize st (SpaceEvent.trackPublished p t))
        (SpaceEvent.trackUnpublished p t)).screenShareTrack = none ∧
      (applyEvent pageSize (applyEvent pageSize st (SpaceEvent.trackPublished p t))
        (SpaceEvent.trackUnpublished p t)).participantScreenSharing = none) := by
  refine ⟨?_, ?_, ?_, ?_⟩
  · simp [applyEvent, setupScreenShare, hsrc, hmedia]
  · cases p <;> simp [applyEvent, setupScreenShare, hsrc, hmedia]
  · intro st2 p2
    simp [applyEvent, tearDownScreenShare, hsrc]
  · simp [applyEvent, setupScreenShare, tearDownScreenShare, hsrc, hmedia]

/-- C6 witness: the spec's scenario, with participant `"p2"` sharing. -/
theorem screenShare_lifecycle_witness :
    (applyEvent 3 joinedNoTracksEx
        (SpaceEvent.trackPublished (Participant.remoteP rpEx2) screenTrackEx)
      ).participantScreenSharing = some (Participant.remoteP rpEx2) ∧
    (applyEvent 3
        (applyEvent 3 joinedNoTracksEx
          (SpaceEvent.trackPublished (Participant.remoteP rpEx2) screenTrackEx))
        (SpaceEvent.trackUnpublished (Participant.remoteP rpEx2) screenTrackEx)
      ).screenShareTrack = none := by
  have h := screenShare_lifecycle 3 joinedNoTracksEx
    (Participant.remoteP rpEx2) screenTrackEx rfl rfl
  exact ⟨h.1.2, h.2.2.2.1⟩

/-! ### C7: `unPublishDevice` on a missing publication -/

/-- C7 counterexample: with an established session whose local participant has
published nothing, `unPublishDevice "d1"` does not fail with `NotPublished` —
it returns successfully with the state untouched, refuting the claim that the
missing-publication violation is surfaced to the caller. -/
theorem unPublishDevice_missing_counterexample :
    unPublishDevice joinedNoTracksEx "d1" = Except.ok joinedNoTracksEx := by
  rfl

/-- C7 (amended): `unPublishDevice` throws only when no session is
established; with an established session and no published track for the
device it is a silent no-op (success, state unchanged); with a published
track it unpublishes that track. -/
theorem unPublishDevice_spec (st : SpaceState) (deviceId : String) :
    (st.localParticipant = none →
      unPublishDevice st deviceId = Except.error SpaceErr.notJoined) ∧
    (∀ lp, st.localParticipant = some lp →
      (lp.getTracks.find? (fun t => t.deviceId == deviceId) = none →
        unPublishDevice st deviceId = Except.ok st) ∧
      (∀ tr, lp.getTracks.find? (fun t => t.deviceId == deviceId) = some tr →
        unPublishDevice st deviceId = Except.ok
          { st with localParticipant := some (lp.unpublishTracks [tr]) })) := by
  refine ⟨fun h => ?_, fun lp hlp => ⟨fun hnone => ?_, fun tr htr => ?_⟩⟩
  · simp [unPublishDevice, h]
  · simp [unPublishDevice, hlp, hnone]
  · simp [unPublishDevice, hlp, htr]

/-- C7 witness: unpublishing the one published microphone succeeds and
removes it. -/
theorem unPublishDevice_spec_witness :
    unPublishDevice joinedWithMicEx "mic1" = Except.ok
      { joinedWithMicEx with
          localParticipant := some (lpWithMicEx.unpublishTracks [micTrackEx]) } := by
  have h := (unPublishDevice_spec joinedWithMicEx "mic1").2 lpWithMicEx rfl
  exact h.2 micTrackEx rfl

/-! ### C2: `publishMicrophone` precondition violations -/

/-- C2: `publishMicrophone` with no local participant fails with `NotJoined`;
after a successful publish for a device id, a second `publishMicrophone` for
the same device id (no intervening unpublish) fails with `AlreadyPublished`;
both violations are reported to the caller as thrown errors (the `Except`
error value), not recorded in any error field of the state. -/
theorem publishMicrophone_preconditions :
    (∀ (media : MediaState) (muted : Bool) (deviceId : String) (acq : AcqResult),
      publishMicrophone none media muted deviceId acq =
        Except.error SpaceErr.notJoined) ∧
    (∀ (lp : LocalParticipant) (media : MediaState) (muted : Bool)
        (tr : Track) (res : PublishMicrophoneResult)
        (media2 : MediaState) (acq2 : AcqResult),
      tr.source = TrackSource.microphone →
      publishMicrophone (some lp) media muted tr.deviceId
          (AcqResult.success [tr]) = Except.ok res →
      publishMicrophone (some res.localParticipant) media2 muted tr.deviceId
          acq2 = Except.error SpaceErr.alreadyPublished) := by
  constructor
  · intro media muted deviceId acq
    rfl
  · intro lp media muted tr res media2 acq2 hsrc hok
    rcases hfind : lp.getAudioTracks.find? (fun t =>
        t.source == TrackSource.microphone && t.deviceId == tr.deviceId) with _ | tfound
    · -- the first call took the publish branch: its result's audio tracks
      -- end with the freshly published microphone track
      have hlp : (publishMicrophone (some lp) media muted tr.deviceId
            (AcqResult.success [tr])).toOption.map
              (fun r => r.localParticipant) = some res.localParticipant := by
        rw [hok]; rfl
      have hfind' : List.find? (fun t =>
          t.source == TrackSource.microphone && t.deviceId == tr.deviceId)
          lp.audioTracks = none := hfind
      have haudio : res.localParticipant.getAudioTracks =
          lp.getAudioTracks ++ [if muted then muteTrack tr else tr] := by
        cases muted <;>
          simp [publishMicrophone, getMicrophone, hfind', hsrc, muteTrack,
            Except.toOption, LocalParticipant.publishTracks,
            LocalParticipant.getAudioTracks] at hlp <;>
          simp [← hlp, LocalParticipant.getAudioTracks, muteTrack, hsrc]
      have hfound : res.localParticipant.getAudioTracks.find? (fun t =>
          t.source == TrackSource.microphone && t.deviceId == tr.deviceId) =
          some (if muted then muteTrack tr else tr) := by
        rw [haudio, List.find?_append, hfind]
        cases muted <;> simp [muteTrack, hsrc]
      simp [publishMicrophone, hfound]
    · -- contradiction: the first call would itself have failed
      rw [publishMicrophone] at hok
      simp only [getMicrophone, hfind] at hok
      simp at hok

/-- C2 witness: republishing `"mic1"` right after a successful publish fails
with `AlreadyPublished`. -/
theorem publishMicrophone_preconditions_witness :
    publishMicrophone (some pubResEx.localParticipant) mediaEmptyEx false "mic1"
      (AcqResult.success [micTrackEx]) = Except.error SpaceErr.alreadyPublished := by
  have h := publishMicrophone_preconditions.2 lpEmptyEx mediaEmptyEx false
    micTrackEx pubResEx mediaEmptyEx (AcqResult.success [micTrackEx]) rfl rfl
  exact h

/-! ### C10: failed acquisition resolves with an undefined track -/

/-- C10: when the platform acquisition throws, `getMicrophone` and `getCamera`
do not reject — they complete normally and hand back `tracks[0]` of an empty
track list, i.e. `undefined` (`none`), despite the declared
`Promise<LocalTrack>` type; and `publishMicrophone` passes that
possibly-undefined value straight to `publishTracks` with no definedness
check: with the mute preference off the call completes with `[none]` as the
list handed to `publishTracks`, and with the mute preference on the call gets
past the check-free publish of `[none]` and only then rejects, with the
`TypeError` from `micTrack.mute()` on the undefined track. -/
theorem acquisitionFailure_resolvesUndefined (media : MediaState)
    (deviceId : String) (e : MediaErr) (lp : LocalParticipant)
    (hfree : lp.getAudioTracks.find? (fun t =>
      t.source == TrackSource.microphone && t.deviceId == deviceId) = none) :
    (∀ muted : Bool, (getMicrophone media muted (AcqResult.failure e)).2 = none) ∧
    (getCamera media (AcqResult.failure e)).2 = none ∧
    publishMicrophone (some lp) media false deviceId (AcqResult.failure e) =
      Except.ok
        { localParticipant := lp.publishTracks [none],
          media := { media with userMediaError := some (classifyMediaError e) },
          published := [none] } ∧
    publishMicrophone (some lp) media true deviceId (AcqResult.failure e) =
      Except.error SpaceErr.typeError := by
  refine ⟨fun muted => rfl, rfl, ?_, ?_⟩ <;>
    · rw [publishMicrophone]
      simp [getMicrophone, hfree]

/-- C10 witness: a permission-denied failure on a fresh session publishes
`[none]` when the mute preference is off, and rejects with the mute
`TypeError` when it is on. -/
theorem acquisitionFailure_resolvesUndefined_witness :
    publishMicrophone (some lpEmptyEx) mediaEmptyEx false "mic1"
      (AcqResult.failure { name := "NotAllowedError", isDOMException := true }) =
      Except.ok
        { localParticipant := lpEmptyEx.publishTracks [none],
          media := { mediaEmptyEx with userMediaError := some "NotAllowedError" },
          published := [none] } ∧
    publishMicrophone (some lpEmptyEx) mediaEmptyEx true "mic1"
      (AcqResult.failure { name := "NotAllowedError", isDOMException := true }) =
      Except.error SpaceErr.typeError := by
  have h := acquisitionFailure_resolvesUndefined mediaEmptyEx "mic1"
    { name := "NotAllowedError", isDOMException := true } lpEmptyEx rfl
  exact ⟨h.2.2.1, h.2.2.2⟩

/-! ### C8: classification of device-acquisition errors -/

/-- C8 counterexample: a constraint-unsatisfiable failure that is (as in
browsers) a `DOMException` instance is recorded as `"NotAllowedError"`
(permission denied), not `"OverconstrainedError"`: the
`e instanceof DOMException` clause of the first branch wins, so the recorded
error is not `ConstraintUnsatisfiable` exactly when constraints cannot be
met, and `PermissionDenied` is recorded without the user declining. -/
theorem mediaError_misclassification_counterexample :
    (getMicrophone mediaEmptyEx false (AcqResult.failure
        { name := "OverconstrainedError", isDOMException := true })).1.userMediaError
      = some "NotAllowedError" ∧
    (getMicrophone mediaEmptyEx false (AcqResult.failure
        { name := "OverconstrainedError", isDOMException := true })).1.userMediaError
      ≠ some "OverconstrainedError" := by
  constructor
  · rfl
  · decide

/-- C8 (amended): a failed acquisition never throws to the caller and always
records `classifyMediaError e` in the UI-observable `userMediaError` field,
for `getMicrophone` and `getCamera` alike.  The recorded value is
`"NotAllowedError"` (permission denied) exactly when the user declined
(error name `NotAllowedError`/`PermissionDeniedError`) **or** the error is a
`DOMException` instance; it is `"OverconstrainedError"` (constraint
unsatisfiable) exactly when the error is not caught by that first test and
has an overconstraint name; otherwise the error's own name is recorded. -/
theorem mediaError_classification (media : MediaState) (muted : Bool)
    (e : MediaErr) :
    (getMicrophone media muted (AcqResult.failure e)).1 =
      { media with userMediaError := some (classifyMediaError e) } ∧
    (getCamera media (AcqResult.failure e)).1 =
      { media with userMediaError := some (classifyMediaError e) } ∧
    (classifyMediaError e = "NotAllowedError" ↔
      (e.name = "NotAllowedError" ∨ e.name = "PermissionDeniedError" ∨
        e.isDOMException = true)) ∧
    (classifyMediaError e = "OverconstrainedError" ↔
      (¬(e.name = "NotAllowedError" ∨ e.name = "PermissionDeniedError" ∨
          e.isDOMException = true) ∧
        (e.name = "OverconstrainedError" ∨
          e.name = "ConstraintNotSatisfiedError"))) ∧
    (¬(e.name = "NotAllowedError" ∨ e.name = "PermissionDeniedError" ∨
        e.isDOMException = true) →
      ¬(e.name = "OverconstrainedError" ∨ e.name = "ConstraintNotSatisfiedError") →
      classifyMediaError e = e.name) := by
  refine ⟨rfl, rfl, ?_, ?_, ?_⟩ <;>
    · unfold classifyMediaError
      split_ifs with h1 h2 <;> simp_all

/-- C8 witness: a generic failure (`NotReadableError`, not a `DOMException`)
is recorded verbatim. -/
theorem mediaError_classification_witness :
    (getMicrophone mediaEmptyEx true (AcqResult.failure
        { name := "NotReadableError", isDOMException := false })).1 =
      { mediaEmptyEx with userMediaError := some "NotReadableError" } := by
  have h := mediaError_classification mediaEmptyEx true
    { name := "NotReadableError", isDOMException := false }
  have hc := h.2.2.2.2 (by decide) (by decide)
  rw [h.1, hc]

/-! ### C9: microphone level metering -/

lemma foldl_sumSq_replicate (n : Nat) (a c : ℚ) :
    (List.replicate n a).foldl (fun acc v => acc + v ^ 2) c = c + n * a ^ 2 := by
  induction n generalizing c with
  | zero => simp
  | succ m ih =>
      rw [List.replicate_succ, List.foldl_cons, ih]
      push_cast
      ring

lemma foldl_peakSq_replicate_of_le (n : Nat) (a c : ℚ) (h : a ^ 2 ≤ c) :
    (List.replicate n a).foldl
      (fun acc v => if v ^ 2 > acc then v ^ 2 else acc) c = c := by
  induction n with
  | zero => rfl
  | succ m ih =>
      rw [List.replicate_succ, List.foldl_cons, if_neg (not_lt.mpr h)]
      exact ih

lemma meanSquare_replicate (n : Nat) (a : ℚ) :
    meanSquare (List.replicate (n + 1) a) = a ^ 2 := by
  rw [meanSquare, foldl_sumSq_replicate, List.length_replicate]
  have h : ((n : ℚ) + 1) ≠ 0 := by positivity
  push_cast
  field_simp

lemma peakSquare_replicate (n : Nat) (a : ℚ) :
    peakSquare (List.replicate (n + 1) a) = a ^ 2 := by
  rw [peakSquare, List.replicate_succ, List.foldl_cons]
  by_cases h : a ^ 2 > 0
  · rw [if_pos h]
    exact foldl_peakSq_replicate_of_le n a _ le_rfl
  · have h0 : a ^ 2 = 0 := le_antisymm (not_lt.mp h) (sq_nonneg a)
    rw [if_neg h, foldl_peakSq_replicate_of_le n a 0 (le_of_eq h0)]
    exact h0.symm

/-- C9: `getActiveMicrophoneLevel` returns `null` when no analyser (no active
microphone) exists; otherwise it returns
`avgDb = 10*log10(mean(sample^2))` and `peakDb = 10*log10(max(sample^2))`
over the most recent buffer; and on every constant-amplitude buffer (all
samples equal) the mean square equals the peak square, so `avgDb = peakDb`. -/
theorem getActiveMicrophoneLevel_spec :
    getActiveMicrophoneLevel none = none ∧
    (∀ buf : List ℚ, getActiveMicrophoneLevel (some buf) =
      some (10 * Real.logb 10 (meanSquare buf),
            10 * Real.logb 10 (peakSquare buf))) ∧
    (∀ (n : Nat) (a : ℚ),
      meanSquare (List.replicate (n + 1) a) =
        peakSquare (List.replicate (n + 1) a) ∧
      getActiveMicrophoneLevel (some (List.replicate (n + 1) a)) =
        some (10 * Real.logb 10 ((a : ℝ) ^ 2), 10 * Real.logb 10 ((a : ℝ) ^ 2))) := by
  refine ⟨rfl, fun buf => rfl, fun n a => ?_⟩
  have hm := meanSquare_replicate n a
  have hp := peakSquare_replicate n a
  constructor
  · rw [hm, hp]
  · simp [getActiveMicrophoneLevel, hm, hp]

/-! ### C3: active-speaker promotion -/

/-- C3: reconciliation of an active-speaker batch applies one step per change
in order (the batch handler is the left fold of the steps); a step whose
remote participant sits in the roster at index ≥ pageSize − 1 moves that
participant to index 0 (splice + unshift), while a step whose participant
sits at index < pageSize − 1 leaves the roster exactly as it was (speakers
already on the visible page are not reshuffled). -/
theorem activeSpeaker_promotion (pageSize : Nat)
    (roster : List RemoteParticipant) (rp : RemoteParticipant) (idx : Nat)
    (hfind : roster.findIdx? (fun p => p.connectionId == rp.connectionId) =
      some idx) :
    (pageSize - 1 ≤ idx →
      activeSpeakerStep pageSize roster (Participant.remoteP rp) =
        rp :: roster.eraseIdx idx ∧
      handleActiveSpeakerChanged pageSize [Participant.remoteP rp] roster =
        rp :: roster.eraseIdx idx) ∧
    (idx < pageSize - 1 →
      activeSpeakerStep pageSize roster (Participant.remoteP rp) = roster ∧
      handleActiveSpeakerChanged pageSize [Participant.remoteP rp] roster =
        roster) ∧
    (∀ changes : List Participant,
      handleActiveSpeakerChanged pageSize changes roster =
        changes.foldl (activeSpeakerStep pageSize) roster) := by
  refine ⟨fun h => ?_, fun h => ?_, fun changes => rfl⟩
  · have hstep : activeSpeakerStep pageSize roster (Participant.remoteP rp) =
        rp :: roster.eraseIdx idx := by
      simp only [activeSpeakerStep, hfind]
      rw [if_pos h]
    exact ⟨hstep, by simp [handleActiveSpeakerChanged, hstep]⟩
  · have hstep : activeSpeakerStep pageSize roster (Participant.remoteP rp) =
        roster := by
      simp only [activeSpeakerStep, hfind]
      rw [if_neg (not_le.mpr h)]
    exact ⟨hstep, by simp [handleActiveSpeakerChanged, hstep]⟩

/-- C3 witness: with page size 3, the speaker at index 2 (the last page slot)
is promoted to the front, and a speaker at index 0 leaves the roster as is. -/
theorem activeSpeaker_promotion_witness :
    handleActiveSpeakerChanged 3 [Participant.remoteP rpEx3]
      [rpEx1, rpEx2, rpEx3] = [rpEx3, rpEx1, rpEx2] ∧
    handleActiveSpeakerChanged 3 [Participant.remoteP rpEx1]
      [rpEx1, rpEx2, rpEx3] = [rpEx1, rpEx2, rpEx3] := by
  have h1 := (activeSpeaker_promotion 3 [rpEx1, rpEx2, rpEx3] rpEx3 2
    (by decide)).1 (by decide)
  have h2 := ((activeSpeaker_promotion 3 [rpEx1, rpEx2, rpEx3] rpEx1 0
    (by decide)).2.1 (by decide))
  exact ⟨h1.2, h2.2⟩

/-! ### C4: subscription resort is a stable partition -/

lemma pairwise_stablePartition (l : List RemoteParticipant) :
    List.Pairwise (fun a b => b.subscribed = true → a.subscribed = true)
      (stablePartitionBySubscription l) := by
  rw [stablePartitionBySubscription, List.pairwise_append]
  refine ⟨?_, ?_, ?_⟩
  · apply List.pairwise_of_forall_mem_list
    intro a ha b _ _
    exact (List.mem_filter.mp ha).2
  · apply List.pairwise_of_forall_mem_list
    intro a _ b hb hsub
    have := (List.mem_filter.mp hb).2
    simp [hsub] at this
  · intro a ha b _ _
    exact (List.mem_filter.mp ha).2

/-- C4: after a track-subscribed or track-unsubscribed event for a remote
participant, the roster equals the stable partition, by subscription status,
of the previous roster with the changed participant's record refreshed: the
result is a permutation of that roster in which every subscribed participant
precedes every unsubscribed one and each side keeps its relative order (its
filter is unchanged). -/
theorem subscription_reorder_stablePartition (pageSize : Nat) (st : SpaceState)
    (rp : RemoteParticipant) (t : Track) :
    ((applyEvent pageSize st
        (SpaceEvent.trackSubscribed (Participant.remoteP rp) t)).remoteParticipants =
      stablePartitionBySubscription (updateByConnectionId st.remoteParticipants rp)) ∧
    ((applyEvent pageSize st
        (SpaceEvent.trackUnsubscribed (Participant.remoteP rp) t)).remoteParticipants =
      stablePartitionBySubscription (updateByConnectionId st.remoteParticipants rp)) ∧
    (∀ l : List RemoteParticipant,
      (stablePartitionBySubscription l).Perm l ∧
      List.Pairwise (fun a b => b.subscribed = true → a.subscribed = true)
        (stablePartitionBySubscription l) ∧
      (stablePartitionBySubscription l).filter (fun p => p.subscribed) =
        l.filter (fun p => p.subscribed) ∧
      (stablePartitionBySubscription l).filter (fun p => !p.subscribed) =
        l.filter (fun p => !p.subscribed)) := by
  refine ⟨?_, ?_, fun l => ⟨List.filter_append_perm _ _,
    pairwise_stablePartition l, ?_, ?_⟩⟩
  · by_cases h : t.source == TrackSource.screenshare && t.hasMedia <;>
      simp [applyEvent, h, setupScreenShare,
        reorderRemoteParticipantsBySubscription, stablePartitionBySubscription,
        updateByConnectionId]
  · by_cases h : t.source == TrackSource.screenshare <;>
      simp [applyEvent, h, tearDownScreenShare,
        reorderRemoteParticipantsBySubscription, stablePartitionBySubscription,
        updateByConnectionId]
  · rw [stablePartitionBySubscription, List.filter_append, List.filter_filter,
      List.filter_filter]
    simp
  · rw [stablePartitionBySubscription, List.filter_append, List.filter_filter,
      List.filter_filter]
    simp

/-! ### C5: connection-id uniqueness -/

lemma findIdx?_found {α : Type} (p : α → Bool) :
    ∀ (l : List α) (i : Nat), l.findIdx? p = some i →
      ∃ x, l[i]? = some x ∧ p x = true := by
  intro l
  induction l with
  | nil => intro i h; simp [List.findIdx?] at h
  | cons a l ih =>
      intro i h
      rw [List.findIdx?_cons] at h
      by_cases hpa : p a
      · rw [if_pos hpa] at h
        cases h
        exact ⟨a, by simp, hpa⟩
      · rw [if_neg hpa, List.findIdx?_succ] at h
        obtain ⟨j, hj, hji⟩ := Option.map_eq_some'.mp h
        obtain ⟨x, hx, hpx⟩ := ih j hj
        subst hji
        exact ⟨x, by rw [List.getElem?_cons_succ]; exact hx, hpx⟩

lemma nodup_map_cons_eraseIdx {α β : Type} (f : α → β) :
    ∀ (l : List α) (idx : Nat) (a x : α),
      l[idx]? = some x → f x = f a → (l.map f).Nodup →
      ((a :: l.eraseIdx idx).map f).Nodup := by
  intro l
  induction l with
  | nil => intro idx a x h; simp at h
  | cons b l ih =>
      intro idx a x hx hfx hN
      rw [List.map_cons, List.nodup_cons] at hN
      cases idx with
      | zero =>
          simp only [List.getElem?_cons_zero, Option.some.injEq] at hx
          subst hx
          rw [List.eraseIdx_cons_zero, List.map_cons, List.nodup_cons, ← hfx]
          exact hN
      | succ n =>
          rw [List.getElem?_cons_succ] at hx
          have hxmem : x ∈ l := by
            obtain ⟨hlt, he⟩ := List.getElem?_eq_some.mp hx
            exact he ▸ List.getElem_mem hlt
          have hrest := ih n a x hx hfx hN.2
          rw [List.map_cons, List.nodup_cons] at hrest
          rw [List.eraseIdx_cons_succ, List.map_cons, List.map_cons,
            List.nodup_cons, List.nodup_cons]
          refine ⟨?_, ?_, hrest.2⟩
          · intro hmem
            rcases List.mem_cons.mp hmem with hab | hmem2
            · -- f a = f b contradicts f b ∉ map f l and x ∈ l with f x = f a
              apply hN.1
              rw [← hab, ← hfx]
              exact List.mem_map_of_mem f hxmem
            · exact hrest.1 hmem2
          · intro hmem
            exact hN.1 (((l.eraseIdx_sublist n).map f).subset hmem)

lemma activeSpeakerStep_nodup (pageSize : Nat) (roster : List RemoteParticipant)
    (c : Participant)
    (hN : (roster.map (fun p => p.connectionId)).Nodup) :
    ((activeSpeakerStep pageSize roster c).map (fun p => p.connectionId)).Nodup := by
  cases c with
  | localP _ => exact hN
  | remoteP rp =>
      rcases hfind : roster.findIdx? (fun p => p.connectionId == rp.connectionId)
        with _ | idx
      · simpa [activeSpeakerStep, hfind] using hN
      · obtain ⟨x, hx, hpx⟩ := findIdx?_found _ roster idx hfind
        have hfx : x.connectionId = rp.connectionId := by simpa using hpx
        by_cases hle : pageSize - 1 ≤ idx
        · have hstep : activeSpeakerStep pageSize roster (Participant.remoteP rp) =
              rp :: roster.eraseIdx idx := by
            simp only [activeSpeakerStep, hfind]
            rw [if_pos hle]
          rw [hstep]
          exact nodup_map_cons_eraseIdx _ roster idx rp x hx hfx hN
        · have hstep : activeSpeakerStep pageSize roster (Participant.remoteP rp) =
              roster := by
            simp only [activeSpeakerStep, hfind]
            rw [if_neg hle]
          rw [hstep]
          exact hN

lemma foldl_activeSpeakerStep_nodup (pageSize : Nat) :
    ∀ (changes : List Participant) (roster : List RemoteParticipant),
      (roster.map (fun p => p.connectionId)).Nodup →
      ((changes.foldl (activeSpeakerStep pageSize) roster).map
        (fun p => p.connectionId)).Nodup := by
  intro changes
  induction changes with
  | nil => intro roster hN; exact hN
  | cons c cs ih =>
      intro roster hN
      rw [List.foldl_cons]
      exact ih _ (activeSpeakerStep_nodup pageSize roster c hN)

lemma map_connectionId_updateByConnectionId (roster : List RemoteParticipant)
    (rp : RemoteParticipant) :
    (updateByConnectionId roster rp).map (fun p => p.connectionId) =
      roster.map (fun p => p.connectionId) := by
  rw [updateByConnectionId, List.map_map]
  apply List.map_congr_left
  intro q _
  by_cases h : q.connectionId = rp.connectionId <;> simp [Function.comp_apply, h]

lemma reorder_nodup (roster : List RemoteParticipant) (rp : RemoteParticipant)
    (hN : (roster.map (fun p => p.connectionId)).Nodup) :
    ((reorderRemoteParticipantsBySubscription roster rp).map
      (fun p => p.connectionId)).Nodup := by
  have hperm : (reorderRemoteParticipantsBySubscription roster rp).Perm
      (updateByConnectionId roster rp) := List.filter_append_perm _ _
  have hupd : ((updateByConnectionId roster rp).map
      (fun p => p.connectionId)).Nodup := by
    rw [map_connectionId_updateByConnectionId]; exact hN
  exact ((hperm.map _).symm).nodup hupd

lemma map_connectionId_displayNameChanged (roster : List RemoteParticipant)
    (rp : RemoteParticipant) :
    (handleDisplayNameChangedRemote roster rp).map (fun p => p.connectionId) =
      roster.map (fun p => p.connectionId) := by
  rw [handleDisplayNameChangedRemote, List.map_map]
  apply List.map_congr_left
  intro q _
  by_cases h : q.connectionId = rp.connectionId <;> simp [Function.comp_apply, h]

/-- C5: the participant-joined handler is idempotent — a join event whose
connection id is already in the roster leaves the roster unchanged (same
length, no duplicate added) — and every event handler preserves uniqueness of
the roster's connection ids, so they are unique in every reachable state. -/
theorem roster_connectionIds_unique (pageSize : Nat) (st : SpaceState)
    (e : SpaceEvent) :
    (∀ (roster : List RemoteParticipant) (p : RemoteParticipant),
      (∃ q ∈ roster, q.connectionId = p.connectionId) →
      handleParticipantJoined roster p = roster) ∧
    ((st.remoteParticipants.map (fun p => p.connectionId)).Nodup →
      ((applyEvent pageSize st e).remoteParticipants.map
        (fun p => p.connectionId)).Nodup) := by
  constructor
  · rintro roster p ⟨q, hq, hqid⟩
    rcases hfound : roster.find? (fun r => r.connectionId == p.connectionId)
      with _ | r
    · rw [List.find?_eq_none] at hfound
      exact absurd (by simp [hqid] : (q.connectionId == p.connectionId) = true)
        (hfound q hq)
    · simp [handleParticipantJoined, hfound]
  · intro hN
    cases e with
    | participantJoined p =>
        simp only [applyEvent]
        rcases hfound : st.remoteParticipants.find?
            (fun r => r.connectionId == p.connectionId) with _ | r
        · rw [handleParticipantJoined, hfound, List.map_append]
          rw [List.nodup_append]
          refine ⟨hN, List.nodup_singleton _, ?_⟩
          intro cid hcid hcid2
          simp only [List.map_cons, List.map_nil, List.mem_singleton] at hcid2
          subst hcid2
          obtain ⟨q, hq, hqid⟩ := List.mem_map.mp hcid
          rw [List.find?_eq_none] at hfound
          exact hfound q hq (by simp [hqid])
        · rw [handleParticipantJoined, hfound]
          exact hN
    | participantLeft p =>
        simp only [applyEvent, handleParticipantLeft]
        exact ((List.filter_sublist _).map _).nodup hN
    | activeSpeakersChanged changes =>
        simp only [applyEvent, handleActiveSpeakerChanged]
        exact foldl_activeSpeakerStep_nodup pageSize changes _ hN
    | broadcastStateChanged b => exact hN
    | trackPublished p t =>
        by_cases h : t.source == TrackSource.screenshare && t.hasMedia <;>
          simp [applyEvent, h, setupScreenShare] <;> exact hN
    | trackSubscribed p t =>
        cases p with
        | localP lp =>
            by_cases h : t.source == TrackSource.screenshare && t.hasMedia <;>
              simp [applyEvent, h, setupScreenShare] <;> exact hN
        | remoteP rp =>
            by_cases h : t.source == TrackSource.screenshare && t.hasMedia <;>
              simp [applyEvent, h, setupScreenShare] <;>
              exact reorder_nodup _ rp hN
    | trackUnpublished p t =>
        by_cases h : t.source == TrackSource.screenshare <;>
          simp [applyEvent, h, tearDownScreenShare] <;> exact hN
    | trackUnsubscribed p t =>
        cases p with
        | localP lp =>
            by_cases h : t.source == TrackSource.screenshare <;>
              simp [applyEvent, h, tearDownScreenShare] <;> exact hN
        | remoteP rp =>
            by_cases h : t.source == TrackSource.screenshare <;>
              simp [applyEvent, h, tearDownScreenShare] <;>
              exact reorder_nodup _ rp hN
    | displayNameChanged p =>
        cases p with
        | localP lp => exact hN
        | remoteP rp =>
            simp only [applyEvent]
            rw [map_connectionId_displayNameChanged]
            exact hN

/-- C5 witness: re-joining `"p1"` (same connection id, different display
name) is a no-op, and a fresh join preserves uniqueness. -/
theorem roster_connectionIds_unique_witness :
    handleParticipantJoined [rpEx1]
      { connectionId := "p1", displayName := "Alya", subscribed := false } =
      [rpEx1] ∧
    ((applyEvent 3 joinedSharingEx
      (SpaceEvent.participantJoined rpEx3)).remoteParticipants.map
        (fun p => p.connectionId)).Nodup := by
  have h := roster_connectionIds_unique 3 joinedSharingEx
    (SpaceEvent.participantJoined rpEx3)
  exact ⟨h.1 [rpEx1] _ ⟨rpEx1, by simp, rfl⟩, h.2 (by decide)⟩

end BalaMeet
